import Mathlib

/-!
Verification of `weather_app.py` (repository tylernap/weather-app).

The program is a CLI utility: it resolves an API credential, acquires and
validates a location string, performs one HTTP GET against the
openweathermap endpoint, and branches on the HTTP status code.

We embed the program shallowly: Python strings become `List Char`,
`str.split()` becomes `splitWs`/`pyTokens`, the regex check
`re.match(r"^[a-zA-Z]*$", item)` becomes `matchesLetters`, and the whole of
`main` (weather_app.py lines 87-144) becomes the function `main` below,
which maps the parsed options and the ambient world (environment variable,
interactive input, HTTP response) to the sequence of observable events and
the process exit status.  Note that `logging.basicConfig` is called with
`stream=sys.stdout` (line 24), so the logging handler writes to standard
output; this is recorded in `loggingStream`.
-/

namespace WeatherApp

/-- Python strings, modelled as their sequence of characters. -/
abbrev PyStr := List Char

/-- Characters on which Python `str.split()` (no separator argument) splits.
We model the ASCII whitespace characters; the claims never involve the
further Unicode whitespace code points Python would also accept. -/
def pyIsSpace (c : Char) : Bool :=
  c = ' ' || c = '\t' || c = '\n' || c = '\r' || c = '\x0b' || c = '\x0c'

/-- Split a character sequence at every whitespace character, keeping the
(possibly empty) pieces between consecutive separators. -/
def splitWs : PyStr → List PyStr
  | [] => [[]]
  | c :: s =>
    if pyIsSpace c then [] :: splitWs s
    else (splitWs s).modifyHead (fun t => c :: t)

/-- `location.split()`: whitespace-splitting into tokens; Python discards
the empty pieces, so runs of whitespace and edge whitespace produce no
tokens. -/
def pyTokens (s : PyStr) : List PyStr :=
  (splitWs s).filter (fun t => !t.isEmpty)

/-- A character accepted by the character class `[a-zA-Z]`. -/
def isAsciiLetter (c : Char) : Bool :=
  ('a' ≤ c && c ≤ 'z') || ('A' ≤ c && c ≤ 'Z')

/-- `re.match(r"^[a-zA-Z]*$", item)` succeeds exactly when every character
of `item` is an ASCII letter (tokens coming from `split()` contain no
newline, so the `$` subtlety is vacuous). -/
def matchesLetters (t : PyStr) : Bool :=
  t.all isAsciiLetter

/-- Python truthiness of an optional string (`if options.api_key:`,
`if not api_key:`, `if options.location:`): `None` and the empty string
are falsy. -/
def pyTruthy : Option PyStr → Bool
  | none => false
  | some s => !s.isEmpty

/-- Outcome of the credential-resolution block, weather_app.py lines 90-94:
the chosen key, and whether `dotenv.load_dotenv()` / `os.getenv("API_KEY")`
were consulted. -/
structure KeyResolution where
  key : Option PyStr
  loadedDotenv : Bool
deriving DecidableEq

/-- Lines 90-94: take the explicit `-k` value when truthy; otherwise load
the `.env` file and read the `API_KEY` environment variable. -/
def resolveApiKey (api_key_opt envApiKey : Option PyStr) : KeyResolution :=
  if pyTruthy api_key_opt then ⟨api_key_opt, false⟩ else ⟨envApiKey, true⟩

/-- Lines 109-123: the validation block.  Returns `some detail` when the
`try` block raises (with `str(e)`), `none` when validation passes.  The
checks, in source order: zero tokens, more than three tokens, a token
failing the letters-only regex (the message uses the whole location). -/
def validateLocation (location : PyStr) : Option PyStr :=
  if (pyTokens location).length = 0 then
    some (("A location is required.").toList)
  else if (pyTokens location).length > 3 then
    some (("The location provided has too many items").toList)
  else if (pyTokens location).any (fun t => !matchesLetters t) then
    some (location ++ (" is not a valid location.").toList)
  else none

/-- The failure condition of claim C1: whitespace-splitting yields zero
tokens, more than three tokens, or some token containing a character that
is not an ASCII letter. -/
def badLocation (location : PyStr) : Prop :=
  (pyTokens location).length = 0 ∨ (pyTokens location).length > 3
    ∨ ∃ t ∈ pyTokens location, ∃ c ∈ t, isAsciiLetter c = false

instance (location : PyStr) : Decidable (badLocation location) := by
  unfold badLocation; infer_instance

/-- Lines 126-127: `if len(location.split()) == 2: location += " US"`. -/
def normalizeLocation (location : PyStr) : PyStr :=
  if (pyTokens location).length = 2 then location ++ (" US").toList
  else location

/-- `','.join(tokens)`. -/
def commaJoin : List PyStr → PyStr
  | [] => []
  | [t] => t
  | t :: ts => t ++ ',' :: commaJoin ts

/-- Line 21. -/
def BASE_API_URL : PyStr :=
  ("https://api.openweathermap.org/data/2.5/weather").toList

/-- Line 131: the URL of the single `requests.get` call. -/
def requestUrl (location api_key : PyStr) : PyStr :=
  BASE_API_URL ++ ("?q=").toList ++ commaJoin (pyTokens location)
    ++ ("&appid=").toList ++ api_key ++ ("&units=imperial").toList

/-- Log levels used by the program. -/
inductive LogLevel
  | debug
  | info
  | error
deriving DecidableEq

/-- Line 19 and 27: `LOGGING_LEVEL = logging.ERROR` and
`logger.setLevel(LOGGING_LEVEL)`; the root handler is at WARN (line 24).
Hence exactly the records at level ERROR are emitted. -/
def loggerEmits : LogLevel → Bool
  | .error => true
  | .info => false
  | .debug => false

/-- Output channels an event can be written to. -/
inductive Channel
  | stdout
  | stderr
  | network
deriving DecidableEq

/-- Lines 23-25: `logging.basicConfig(stream=sys.stdout, ...)` — the
logging handler writes to standard output (the library default would have
been standard error). -/
def loggingStream : Channel := Channel.stdout

/-- Observable events of a run, in order. -/
inductive Event
  | printOut (line : PyStr)
  | promptOut (text : PyStr)
  | helpOut
  | logRec (lvl : LogLevel) (msg : PyStr)
  | httpGet (url : PyStr)
deriving DecidableEq

/-- The channel each event is written to: `print` and the `input()` prompt
and `parser.print_help()` go to standard output; log records go to the
configured logging stream; the GET goes to the network. -/
def Event.channel : Event → Channel
  | .printOut _ => Channel.stdout
  | .promptOut _ => Channel.stdout
  | .helpOut => Channel.stdout
  | .logRec _ _ => loggingStream
  | .httpGet _ => Channel.network

/-- A `logger.<lvl>(msg)` call: a record is emitted only when the logger
level passes it. -/
def logEvent (lvl : LogLevel) (msg : PyStr) : List Event :=
  if loggerEmits lvl then [Event.logRec lvl msg] else []

/-- How the process ends: `fellOff` is `main` returning normally (process
exit status 0); `exited n` is `sys.exit(n)`. -/
inductive ExitStatus
  | fellOff
  | exited (code : Nat)
deriving DecidableEq

/-- The numeric exit status of the process. -/
def ExitStatus.code : ExitStatus → Nat
  | .fellOff => 0
  | .exited n => n

/-- Python `int()` applied to the numeric temperature: truncation toward
zero (`Int.tdiv` is t-division). -/
def pyInt (q : ℚ) : ℤ :=
  Int.tdiv q.num (q.den : ℤ)

/-- The HTTP response of the single GET: its status code, the value of
`response.json()["main"]["temp"]` (the claims only concern responses whose
body carries it), and `str(response.json())`, the rendering used by the
error log on an unrecognized status. -/
structure Response where
  status_code : Nat
  mainTemp : ℚ
  bodyRepr : PyStr
deriving DecidableEq

/-- The parsed command-line options (`argparse` yields `None` for an
omitted flag). -/
structure Options where
  location : Option PyStr
  api_key : Option PyStr
deriving DecidableEq

/-- The ambient world of one run: `os.getenv("API_KEY")` as observed after
`dotenv.load_dotenv()`, the string `get_input` returns, and the HTTP
response the single GET would receive. -/
structure World where
  envApiKey : Option PyStr
  promptInput : PyStr
  response : Response
deriving DecidableEq

/-- The observable outcome of a run. -/
structure RunResult where
  events : List Event
  exit : ExitStatus
deriving DecidableEq

/-- Lines 103-106: the location string that gets validated — the `-l`
value when truthy, otherwise whatever the interactive prompt returns. -/
def acquiredLocation (options : Options) (w : World) : PyStr :=
  if pyTruthy options.location then options.location.getD []
  else w.promptInput

/-- The prompt text `input("Where are you? ")` writes to standard output,
present exactly when the interactive branch is taken. -/
def promptEvents (options : Options) : List Event :=
  if pyTruthy options.location then []
  else [Event.promptOut (("Where are you? ").toList)]

/-- The resolved credential of a run (meaningful when truthy). -/
def resolvedKey (options : Options) (w : World) : PyStr :=
  (resolveApiKey options.api_key w.envApiKey).key.getD []

/-- Lines 134-144: the status branch.  200 prints the two result lines
(the info record is suppressed by the logger level); 404 logs an error
naming the (already normalized) location; anything else logs an error
carrying `str(response.json())`. -/
def responseEvents (location : PyStr) (resp : Response) : List Event :=
  if resp.status_code = 200 then
    logEvent LogLevel.info (("Successfully retrieved data").toList)
      ++ [Event.printOut ((pyTokens location).headD [] ++ (" weather:").toList),
          Event.printOut ((toString (pyInt resp.mainTemp)).toList
            ++ (" degrees Fahrenheit").toList)]
  else if resp.status_code = 404 then
    logEvent LogLevel.error
      (("Could not find any location for ").toList ++ location)
  else
    logEvent LogLevel.error
      (("An unknown error has occurred with the OpenWeather API: ").toList
        ++ resp.bodyRepr)

/-- Lines 87-144, `main()`:
credential resolution (90-94); the missing-credential exit (96-100); the
`print(api_key)` echo (102); location acquisition (103-106); validation
with its error log, help text and `sys.exit(1)` (109-123); normalization
(126-127); the single GET (130-132); the suppressed debug record (133);
and the status branch (134-144). -/
def main (options : Options) (w : World) : RunResult :=
  let kr := resolveApiKey options.api_key w.envApiKey
  if pyTruthy kr.key then
    let api_key : PyStr := kr.key.getD []
    let location : PyStr := acquiredLocation options w
    match validateLocation location with
    | some detail =>
      { events := Event.printOut api_key :: promptEvents options
          ++ logEvent LogLevel.error
              (("A validation error has occurred: ").toList ++ detail)
          ++ [Event.helpOut]
        exit := ExitStatus.exited 1 }
    | none =>
      let location := normalizeLocation location
      { events := Event.printOut api_key :: promptEvents options
          ++ [Event.httpGet (requestUrl location api_key)]
          ++ logEvent LogLevel.debug
              (("Response: ").toList ++ w.response.bodyRepr)
          ++ responseEvents location w.response
        exit := ExitStatus.fellOff }
  else
    { events := logEvent LogLevel.error
        (("API key missing! Either fill out a .env file or use -k with your key").toList)
      exit := ExitStatus.exited 1 }

/-- The lines `print` writes, in order. -/
def printedLines (r : RunResult) : List PyStr :=
  r.events.filterMap fun e =>
    match e with
    | .printOut s => some s
    | _ => none

/-- The URLs fetched over the network, in order. -/
def networkCalls (r : RunResult) : List PyStr :=
  r.events.filterMap fun e =>
    match e with
    | .httpGet u => some u
    | _ => none

/-- The log records actually emitted, in order. -/
def logRecords (r : RunResult) : List (LogLevel × PyStr) :=
  r.events.filterMap fun e =>
    match e with
    | .logRec lvl m => some (lvl, m)
    | _ => none

/-- The events written to standard output, in order. -/
def stdoutEvents (r : RunResult) : List Event :=
  r.events.filter (fun e => e.channel == Channel.stdout)

/-! Helper lemmas about whitespace splitting. -/

theorem splitWs_ne_nil (s : PyStr) : splitWs s ≠ [] := by
  induction s with
  | nil => simp [splitWs]
  | cons c s ih =>
    simp only [splitWs]
    split
    · simp
    · rcases h : splitWs s with _ | ⟨a, t⟩
      · exact absurd h ih
      · simp

theorem splitWs_append_tok (s : PyStr) :
    splitWs (s ++ [' ', 'U', 'S']) = splitWs s ++ [['U', 'S']] := by
  induction s with
  | nil => decide
  | cons c s ih =>
    simp only [List.cons_append, splitWs]
    split
    · simp [ih]
    · rcases h : splitWs s with _ | ⟨a, t⟩
      · exact absurd h (splitWs_ne_nil s)
      · rw [List.append_eq, ih, h]
        simp

/-- Appending the default-country suffix " US" adds exactly the token "US"
at the end of the token list. -/
theorem pyTokens_append_US (s : PyStr) :
    pyTokens (s ++ (" US").toList) = pyTokens s ++ [("US").toList] := by
  have h : (" US").toList = [' ', 'U', 'S'] := rfl
  have h2 : ("US").toList = ['U', 'S'] := rfl
  rw [h, h2]
  unfold pyTokens
  rw [splitWs_append_tok, List.filter_append]
  simp

/-! Helper lemmas about validation. -/

theorem matchesLetters_eq_false_iff (t : PyStr) :
    matchesLetters t = false ↔ ∃ c ∈ t, isAsciiLetter c = false := by
  unfold matchesLetters
  rw [← Bool.not_eq_true, List.all_eq_true]
  push_neg
  simp

/-- The validation block passes exactly on the non-bad locations. -/
theorem validateLocation_eq_none_iff (s : PyStr) :
    validateLocation s = none ↔ ¬ badLocation s := by
  unfold validateLocation badLocation
  split_ifs with h0 h3 hb
  · simp [h0]
  · simp [h3]
  · rw [List.any_eq_true] at hb
    obtain ⟨t, ht, hbad⟩ := hb
    rw [Bool.not_eq_true'] at hbad
    simp only [false_iff, not_not]
    exact Or.inr (Or.inr ⟨t, ht, (matchesLetters_eq_false_iff t).1 hbad⟩)
  · simp only [true_iff]
    push_neg
    refine ⟨h0, by omega, ?_⟩
    intro t ht c hc hlet
    have : (pyTokens s).any (fun t => !matchesLetters t) = true :=
      List.any_eq_true.2 ⟨t, ht, by
        rw [Bool.not_eq_true', matchesLetters_eq_false_iff]
        exact ⟨c, hc, hlet⟩⟩
    simp [this] at hb

/-! Shape of `main` in each of its three control-flow outcomes. -/

theorem main_missing_key (options : Options) (w : World)
    (h : pyTruthy (resolveApiKey options.api_key w.envApiKey).key = false) :
    main options w =
      { events := [Event.logRec LogLevel.error
          (("API key missing! Either fill out a .env file or use -k with your key").toList)]
        exit := ExitStatus.exited 1 } := by
  simp [main, h, logEvent, loggerEmits]

theorem main_invalid (options : Options) (w : World) (d : PyStr)
    (h : pyTruthy (resolveApiKey options.api_key w.envApiKey).key = true)
    (hv : validateLocation (acquiredLocation options w) = some d) :
    main options w =
      { events := Event.printOut (resolvedKey options w) :: promptEvents options
          ++ [Event.logRec LogLevel.error
                (("A validation error has occurred: ").toList ++ d),
              Event.helpOut]
        exit := ExitStatus.exited 1 } := by
  simp [main, h, hv, resolvedKey, logEvent, loggerEmits]

theorem main_valid (options : Options) (w : World)
    (h : pyTruthy (resolveApiKey options.api_key w.envApiKey).key = true)
    (hv : validateLocation (acquiredLocation options w) = none) :
    main options w =
      { events := Event.printOut (resolvedKey options w) :: promptEvents options
          ++ Event.httpGet (requestUrl (normalizeLocation (acquiredLocation options w))
                (resolvedKey options w))
            :: responseEvents (normalizeLocation (acquiredLocation options w)) w.response
        exit := ExitStatus.fellOff } := by
  simp [main, h, hv, resolvedKey, logEvent, loggerEmits]

/-- The first standard-output event of every run that passes credential
resolution is the `print(api_key)` echo of the resolved credential. -/
theorem stdoutEvents_head_echo (options : Options) (w : World)
    (h : pyTruthy (resolveApiKey options.api_key w.envApiKey).key = true) :
    (stdoutEvents (main options w)).head?
      = some (Event.printOut (resolvedKey options w)) := by
  rcases hv : validateLocation (acquiredLocation options w) with _ | d
  · rw [main_valid options w h hv]
    simp [stdoutEvents, List.filter_cons, Event.channel]
  · rw [main_invalid options w d h hv]
    simp [stdoutEvents, List.filter_cons, Event.channel]

/-- C1: for every location string (explicit or obtained from the prompt),
in a run whose credential resolves, validation fails — exiting with status
1, logging exactly one record of the form "A validation error has
occurred: <detail>" and emitting the help text — if and only if
whitespace-splitting yields zero tokens, more than three tokens, or some
token containing a non-alphabetic character; on every other location the
run proceeds to the API call and does not take the failure exit. -/
theorem C1_validation_iff (options : Options) (w : World)
    (hkey : pyTruthy (resolveApiKey options.api_key w.envApiKey).key = true) :
    (((main options w).exit = ExitStatus.exited 1
        ∧ (∃ d, logRecords (main options w)
            = [(LogLevel.error, ("A validation error has occurred: ").toList ++ d)])
        ∧ Event.helpOut ∈ (main options w).events)
      ↔ badLocation (acquiredLocation options w))
    ∧ (¬ badLocation (acquiredLocation options w) →
        (main options w).exit = ExitStatus.fellOff
          ∧ Event.httpGet (requestUrl (normalizeLocation (acquiredLocation options w))
              (resolvedKey options w)) ∈ (main options w).events) := by
  rcases hv : validateLocation (acquiredLocation options w) with _ | d
  · have hgood : ¬ badLocation (acquiredLocation options w) :=
      (validateLocation_eq_none_iff _).1 hv
    rw [main_valid options w hkey hv]
    refine ⟨by simp [hgood], fun _ => ⟨rfl, by simp⟩⟩
  · have hbad : badLocation (acquiredLocation options w) := by
      by_contra hgood
      rw [← validateLocation_eq_none_iff] at hgood
      rw [hv] at hgood
      cases hgood
    rw [main_invalid options w d hkey hv]
    refine ⟨⟨fun _ => hbad, fun _ => ⟨rfl, ⟨d, ?_⟩, by simp⟩⟩,
      fun hgood => absurd hbad hgood⟩
    by_cases hpt : pyTruthy options.location <;>
      simp [logRecords, promptEvents, hpt]

/-- C1 witness: the invalid location "abc123" (a non-alphabetic token)
makes the run exit with status 1. -/
theorem C1_validation_iff_witness :
    (main ⟨some (("abc123").toList), some (("asdf").toList)⟩
        ⟨none, [], ⟨200, 0, ("body").toList⟩⟩).exit = ExitStatus.exited 1 :=
  ((C1_validation_iff ⟨some (("abc123").toList), some (("asdf").toList)⟩
      ⟨none, [], ⟨200, 0, ("body").toList⟩⟩ (by decide)).1.mpr (by decide)).1

/-- C2: on every run whose location passes validation, a 2-token location
gets the fixed token "US" appended as third token, a 1- or 3-token
location is left unchanged, and the GET query joins the (post-append)
tokens with commas in their original order. -/
theorem C2_normalization (options : Options) (w : World)
    (hkey : pyTruthy (resolveApiKey options.api_key w.envApiKey).key = true)
    (hok : ¬ badLocation (acquiredLocation options w)) :
    ((pyTokens (acquiredLocation options w)).length = 2 →
        pyTokens (normalizeLocation (acquiredLocation options w))
          = pyTokens (acquiredLocation options w) ++ [("US").toList])
    ∧ ((pyTokens (acquiredLocation options w)).length = 1
          ∨ (pyTokens (acquiredLocation options w)).length = 3 →
        normalizeLocation (acquiredLocation options w) = acquiredLocation options w)
    ∧ Event.httpGet (BASE_API_URL ++ ("?q=").toList
          ++ commaJoin (pyTokens (normalizeLocation (acquiredLocation options w)))
          ++ ("&appid=").toList ++ resolvedKey options w ++ ("&units=imperial").toList)
        ∈ (main options w).events := by
  refine ⟨?_, ?_, ?_⟩
  · intro h2
    rw [normalizeLocation, if_pos h2, pyTokens_append_US]
  · intro h13
    rcases h13 with h | h <;> rw [normalizeLocation, if_neg (by omega)]
  · have hv : validateLocation (acquiredLocation options w) = none :=
      (validateLocation_eq_none_iff _).2 hok
    rw [main_valid options w hkey hv]
    simp [requestUrl]

/-- C2 witness: "Chicago IL" has exactly two tokens, and normalization
appends the token "US". -/
theorem C2_normalization_witness :
    pyTokens (normalizeLocation (acquiredLocation
        ⟨some (("Chicago IL").toList), some (("asdf").toList)⟩
        ⟨none, [], ⟨200, mkRat 6976 100, ("body").toList⟩⟩))
      = pyTokens (acquiredLocation
          ⟨some (("Chicago IL").toList), some (("asdf").toList)⟩
          ⟨none, [], ⟨200, mkRat 6976 100, ("body").toList⟩⟩) ++ [("US").toList] :=
  (C2_normalization ⟨some (("Chicago IL").toList), some (("asdf").toList)⟩
      ⟨none, [], ⟨200, mkRat 6976 100, ("body").toList⟩⟩
      (by decide) (by decide)).1 (by decide)

/-- C3: a non-empty explicit credential is returned as-is, without loading
the configuration: the resolver neither reads the environment (the whole
run is unchanged under any environment value) nor loads the `.env` file;
with the flag absent or empty, the resolver loads the `.env` file and
reads the `API_KEY` environment variable. -/
theorem C3_credential_resolution (k : PyStr) (hk : k ≠ []) :
    (∀ env, resolveApiKey (some k) env = ⟨some k, false⟩)
    ∧ (∀ env, resolveApiKey none env = ⟨env, true⟩
        ∧ resolveApiKey (some []) env = ⟨env, true⟩)
    ∧ (∀ locOpt e₁ e₂ p r,
        main ⟨locOpt, some k⟩ ⟨e₁, p, r⟩ = main ⟨locOpt, some k⟩ ⟨e₂, p, r⟩) := by
  have hkt : pyTruthy (some k) = true := by simp [pyTruthy, hk]
  refine ⟨?_, ?_, ?_⟩
  · intro env
    simp [resolveApiKey, hkt]
  · intro env
    exact ⟨by simp [resolveApiKey, pyTruthy], by simp [resolveApiKey, pyTruthy]⟩
  · intro locOpt e₁ e₂ p r
    simp [main, resolveApiKey, hkt, acquiredLocation, promptEvents]

/-- C3 witness: the explicit key "asdf" is returned untouched even with a
different key sitting in the environment. -/
theorem C3_credential_resolution_witness :
    resolveApiKey (some (("asdf").toList)) (some (("zzzz").toList))
      = ⟨some (("asdf").toList), false⟩ :=
  (C3_credential_resolution (("asdf").toList) (by decide)).1 (some (("zzzz").toList))

/-- C4 counterexample: a 200 run with main.temp = 69.76 prints three
lines, not exactly two — line 102, `print(api_key)`, echoes the credential
before the two success lines. -/
theorem C4_counterexample :
    printedLines (main ⟨some (("Chicago").toList), some (("asdf").toList)⟩
        ⟨none, [], ⟨200, mkRat 6976 100, ("body").toList⟩⟩)
      = [("asdf").toList, ("Chicago weather:").toList,
         ("69 degrees Fahrenheit").toList]
    ∧ (printedLines (main ⟨some (("Chicago").toList), some (("asdf").toList)⟩
        ⟨none, [], ⟨200, mkRat 6976 100, ("body").toList⟩⟩)).length ≠ 2 := by
  decide

/-- C4 (amended): on every 200 run the lines printed are exactly the
API-key echo followed by the two success lines — the first location token
with " weather:", then the temperature truncated toward zero with
" degrees Fahrenheit"; truncation of a non-negative value is the floor
(the fractional part is discarded, not rounded), and 69.76 yields 69. -/
theorem C4_success_output (options : Options) (w : World)
    (hkey : pyTruthy (resolveApiKey options.api_key w.envApiKey).key = true)
    (hok : ¬ badLocation (acquiredLocation options w))
    (h200 : w.response.status_code = 200) :
    printedLines (main options w)
      = [resolvedKey options w,
         (pyTokens (normalizeLocation (acquiredLocation options w))).headD []
           ++ (" weather:").toList,
         (toString (pyInt w.response.mainTemp)).toList
           ++ (" degrees Fahrenheit").toList]
    ∧ pyInt (mkRat 6976 100 : ℚ) = 69
    ∧ (∀ q : ℚ, 0 ≤ q → pyInt q = ⌊q⌋) := by
  refine ⟨?_, by decide, ?_⟩
  · have hv : validateLocation (acquiredLocation options w) = none :=
      (validateLocation_eq_none_iff _).2 hok
    rw [main_valid options w hkey hv]
    by_cases hpt : pyTruthy options.location <;>
      simp [printedLines, promptEvents, responseEvents, hpt, h200,
        logEvent, loggerEmits]
  · intro q hq
    have hnum : 0 ≤ q.num := Rat.num_nonneg.2 hq
    have hden : (0 : ℤ) ≤ (q.den : ℤ) := Int.ofNat_nonneg _
    rw [pyInt, Int.tdiv_eq_ediv hnum hden, Rat.floor_def]

/-- C4 witness: a concrete 200 run with main.temp = 69.76 prints the echo
and the two success lines with the truncated value 69. -/
theorem C4_success_output_witness :
    printedLines (main ⟨some (("Boston").toList), some (("key").toList)⟩
        ⟨none, [], ⟨200, mkRat 6976 100, ("body").toList⟩⟩)
      = [("key").toList, ("Boston weather:").toList,
         ("69 degrees Fahrenheit").toList] := by
  rw [(C4_success_output ⟨some (("Boston").toList), some (("key").toList)⟩
      ⟨none, [], ⟨200, mkRat 6976 100, ("body").toList⟩⟩
      (by decide) (by decide) rfl).1]
  decide

/-- C5: when the explicit credential is absent or empty and the
environment lookup is absent or empty, the run emits exactly the
error-level "API key missing" record, exits with status 1, and performs no
network call. -/
theorem C5_missing_credential (options : Options) (w : World)
    (hflag : pyTruthy options.api_key = false)
    (henv : pyTruthy w.envApiKey = false) :
    (main options w).events
      = [Event.logRec LogLevel.error
          (("API key missing! Either fill out a .env file or use -k with your key").toList)]
    ∧ (main options w).exit = ExitStatus.exited 1
    ∧ networkCalls (main options w) = [] := by
  have h : pyTruthy (resolveApiKey options.api_key w.envApiKey).key = false := by
    simp [resolveApiKey, hflag, henv]
  rw [main_missing_key options w h]
  exact ⟨rfl, rfl, rfl⟩

/-- C5 witness: with the flag omitted and the environment variable set to
the empty string, the run logs "API key missing", exits 1 and never calls
the network. -/
theorem C5_missing_credential_witness :
    (main ⟨some (("Chicago").toList), none⟩
        ⟨some [], [], ⟨200, 0, ("body").toList⟩⟩).events
      = [Event.logRec LogLevel.error
          (("API key missing! Either fill out a .env file or use -k with your key").toList)]
    ∧ (main ⟨some (("Chicago").toList), none⟩
        ⟨some [], [], ⟨200, 0, ("body").toList⟩⟩).exit = ExitStatus.exited 1
    ∧ networkCalls (main ⟨some (("Chicago").toList), none⟩
        ⟨some [], [], ⟨200, 0, ("body").toList⟩⟩) = [] :=
  C5_missing_credential ⟨some (("Chicago").toList), none⟩
    ⟨some [], [], ⟨200, 0, ("body").toList⟩⟩ (by decide) (by decide)

/-- C6: a 404 run logs an error naming the normalized location, prints no
line beyond the API-key echo (in particular no temperature line), and the
process falls off the end of `main`, exiting with status 0. -/
theorem C6_not_found (options : Options) (w : World)
    (hkey : pyTruthy (resolveApiKey options.api_key w.envApiKey).key = true)
    (hok : ¬ badLocation (acquiredLocation options w))
    (h404 : w.response.status_code = 404) :
    Event.logRec LogLevel.error
        (("Could not find any location for ").toList
          ++ normalizeLocation (acquiredLocation options w))
      ∈ (main options w).events
    ∧ printedLines (main options w) = [resolvedKey options w]
    ∧ (main options w).exit = ExitStatus.fellOff
    ∧ ((main options w).exit).code = 0 := by
  have hv : validateLocation (acquiredLocation options w) = none :=
    (validateLocation_eq_none_iff _).2 hok
  rw [main_valid options w hkey hv]
  refine ⟨?_, ?_, rfl, rfl⟩
  · simp [responseEvents, h404, logEvent, loggerEmits]
  · by_cases hpt : pyTruthy options.location <;>
      simp [printedLines, promptEvents, responseEvents, hpt, h404,
        logEvent, loggerEmits]

/-- C6 witness: a 404 run for the one-token location "Atlantis" logs the
not-found error, prints only the key echo and exits with status 0. -/
theorem C6_not_found_witness :
    Event.logRec LogLevel.error
        (("Could not find any location for Atlantis").toList)
      ∈ (main ⟨some (("Atlantis").toList), some (("asdf").toList)⟩
          ⟨none, [], ⟨404, 0, ("body").toList⟩⟩).events
    ∧ printedLines (main ⟨some (("Atlantis").toList), some (("asdf").toList)⟩
        ⟨none, [], ⟨404, 0, ("body").toList⟩⟩) = [("asdf").toList]
    ∧ (main ⟨some (("Atlantis").toList), some (("asdf").toList)⟩
        ⟨none, [], ⟨404, 0, ("body").toList⟩⟩).exit = ExitStatus.fellOff
    ∧ ((main ⟨some (("Atlantis").toList), some (("asdf").toList)⟩
        ⟨none, [], ⟨404, 0, ("body").toList⟩⟩).exit).code = 0 :=
  C6_not_found ⟨some (("Atlantis").toList), some (("asdf").toList)⟩
    ⟨none, [], ⟨404, 0, ("body").toList⟩⟩ (by decide) (by decide) rfl

/-- C7: a run whose status is neither 200 nor 404 logs an error carrying
the full response body, prints no line beyond the API-key echo, and exits
with status 0. -/
theorem C7_upstream_error (options : Options) (w : World)
    (hkey : pyTruthy (resolveApiKey options.api_key w.envApiKey).key = true)
    (hok : ¬ badLocation (acquiredLocation options w))
    (h200 : w.response.status_code ≠ 200)
    (h404 : w.response.status_code ≠ 404) :
    Event.logRec LogLevel.error
        (("An unknown error has occurred with the OpenWeather API: ").toList
          ++ w.response.bodyRepr)
      ∈ (main options w).events
    ∧ printedLines (main options w) = [resolvedKey options w]
    ∧ (main options w).exit = ExitStatus.fellOff
    ∧ ((main options w).exit).code = 0 := by
  have hv : validateLocation (acquiredLocation options w) = none :=
    (validateLocation_eq_none_iff _).2 hok
  rw [main_valid options w hkey hv]
  refine ⟨?_, ?_, rfl, rfl⟩
  · simp [responseEvents, h200, h404, logEvent, loggerEmits]
  · by_cases hpt : pyTruthy options.location <;>
      simp [printedLines, promptEvents, responseEvents, hpt, h200, h404,
        logEvent, loggerEmits]

/-- C7 witness: a 500 run logs the unknown-error record with the raw body
and exits with status 0. -/
theorem C7_upstream_error_witness :
    Event.logRec LogLevel.error
        (("An unknown error has occurred with the OpenWeather API: servererror").toList)
      ∈ (main ⟨some (("Chicago").toList), some (("asdf").toList)⟩
          ⟨none, [], ⟨500, 0, ("servererror").toList⟩⟩).events
    ∧ printedLines (main ⟨some (("Chicago").toList), some (("asdf").toList)⟩
        ⟨none, [], ⟨500, 0, ("servererror").toList⟩⟩) = [("asdf").toList]
    ∧ (main ⟨some (("Chicago").toList), some (("asdf").toList)⟩
        ⟨none, [], ⟨500, 0, ("servererror").toList⟩⟩).exit = ExitStatus.fellOff
    ∧ ((main ⟨some (("Chicago").toList), some (("asdf").toList)⟩
        ⟨none, [], ⟨500, 0, ("servererror").toList⟩⟩).exit).code = 0 :=
  C7_upstream_error ⟨some (("Chicago").toList), some (("asdf").toList)⟩
    ⟨none, [], ⟨500, 0, ("servererror").toList⟩⟩
    (by decide) (by decide) (by decide) (by decide)

/-- C8 counterexample: diagnostics do not go to a stream separate from
standard output — `logging.basicConfig(stream=sys.stdout, ...)` sends them
to standard output itself.  In a concrete 404 run an ERROR record is
emitted and its channel is stdout. -/
theorem C8_counterexample :
    Event.logRec LogLevel.error
        (("Could not find any location for Nowhere").toList)
      ∈ (main ⟨some (("Nowhere").toList), some (("asdf").toList)⟩
          ⟨none, [], ⟨404, 0, ("body").toList⟩⟩).events
    ∧ Event.channel (Event.logRec LogLevel.error
        (("Could not find any location for Nowhere").toList)) = Channel.stdout := by
  decide

/-- C8 (amended): the logging stream is standard output itself, so every
emitted log record of every run is written to standard output, alongside
the success-path lines and the API-key echo, not to a separate stream. -/
theorem C8_diagnostics_on_stdout (options : Options) (w : World) :
    loggingStream = Channel.stdout
    ∧ ∀ lvl m, Event.logRec lvl m ∈ (main options w).events →
        Event.channel (Event.logRec lvl m) = Channel.stdout :=
  ⟨rfl, fun _ _ _ => rfl⟩

/-- C8 witness: the not-found ERROR record of a concrete 404 run is
written to standard output. -/
theorem C8_diagnostics_on_stdout_witness :
    Event.channel (Event.logRec LogLevel.error
        (("Could not find any location for Atlantis").toList)) = Channel.stdout :=
  (C8_diagnostics_on_stdout ⟨some (("Atlantis").toList), some (("asdf").toList)⟩
      ⟨none, [], ⟨404, 0, ("body").toList⟩⟩).2
    LogLevel.error (("Could not find any location for Atlantis").toList) (by decide)

/-- C9: in every run that passes credential resolution the first
standard-output event is the unconditional echo of the resolved
credential, printed before the location is acquired; hence two runs
identical except for their resolved credentials have different standard
outputs — the credential is observable on standard output. -/
theorem C9_credential_observable (o₁ o₂ : Options) (w₁ w₂ : World)
    (h₁ : pyTruthy (resolveApiKey o₁.api_key w₁.envApiKey).key = true)
    (h₂ : pyTruthy (resolveApiKey o₂.api_key w₂.envApiKey).key = true)
    (hloc : o₁.location = o₂.location)
    (hp : w₁.promptInput = w₂.promptInput)
    (hr : w₁.response = w₂.response)
    (hkeys : resolvedKey o₁ w₁ ≠ resolvedKey o₂ w₂) :
    (stdoutEvents (main o₁ w₁)).head? = some (Event.printOut (resolvedKey o₁ w₁))
    ∧ (stdoutEvents (main o₂ w₂)).head? = some (Event.printOut (resolvedKey o₂ w₂))
    ∧ stdoutEvents (main o₁ w₁) ≠ stdoutEvents (main o₂ w₂) := by
  refine ⟨stdoutEvents_head_echo o₁ w₁ h₁, stdoutEvents_head_echo o₂ w₂ h₂, ?_⟩
  intro heq
  have h1 := stdoutEvents_head_echo o₁ w₁ h₁
  rw [heq, stdoutEvents_head_echo o₂ w₂ h₂] at h1
  simp only [Option.some.injEq, Event.printOut.injEq] at h1
  exact hkeys h1.symm

/-- C9 witness: two runs differing only in the explicit credential have
different standard outputs. -/
theorem C9_credential_observable_witness :
    stdoutEvents (main ⟨some (("Chicago").toList), some (("keyone").toList)⟩
        ⟨none, [], ⟨200, mkRat 6976 100, ("body").toList⟩⟩)
      ≠ stdoutEvents (main ⟨some (("Chicago").toList), some (("keytwo").toList)⟩
        ⟨none, [], ⟨200, mkRat 6976 100, ("body").toList⟩⟩) :=
  (C9_credential_observable
      ⟨some (("Chicago").toList), some (("keyone").toList)⟩
      ⟨some (("Chicago").toList), some (("keytwo").toList)⟩
      ⟨none, [], ⟨200, mkRat 6976 100, ("body").toList⟩⟩
      ⟨none, [], ⟨200, mkRat 6976 100, ("body").toList⟩⟩
      (by decide) (by decide) rfl rfl rfl (by decide)).2.2

/-- C10: an explicit empty location flag is falsy, so the run is exactly
the run with the flag omitted: the interactive prompt is consulted and
only the prompted string is validated — an explicit empty location never
reaches the EmptyLocation failure directly. -/
theorem C10_empty_location_prompts (options : Options) (w : World)
    (h : options.location = some []) :
    main options w = main ⟨none, options.api_key⟩ w
    ∧ (pyTruthy (resolveApiKey options.api_key w.envApiKey).key = true →
        Event.promptOut (("Where are you? ").toList) ∈ (main options w).events) := by
  have hloc : pyTruthy options.location = false := by rw [h]; rfl
  constructor
  · obtain ⟨lo, ak⟩ := options
    cases h
    simp [main, acquiredLocation, promptEvents, pyTruthy]
  · intro hkey
    rcases hv : validateLocation (acquiredLocation options w) with _ | d
    · rw [main_valid options w hkey hv]
      simp [promptEvents, hloc]
    · rw [main_invalid options w d hkey hv]
      simp [promptEvents, hloc]

/-- C10 witness: with `-l ""` the run prompts interactively and validates
the prompted string "Chicago". -/
theorem C10_empty_location_prompts_witness :
    Event.promptOut (("Where are you? ").toList)
      ∈ (main ⟨some [], some (("asdf").toList)⟩
          ⟨none, ("Chicago").toList, ⟨200, mkRat 6976 100, ("body").toList⟩⟩).events :=
  (C10_empty_location_prompts ⟨some [], some (("asdf").toList)⟩
      ⟨none, ("Chicago").toList, ⟨200, mkRat 6976 100, ("body").toList⟩⟩ rfl).2
    (by decide)

end WeatherApp
